import Mathlib

/-!
Shallow embedding of the backend of the campaign-generator demo
(src/backend/server.js): the in-memory session store and the
POST /api/connect handler, the GET /api/generate-campaign handler with its
validation, the generateCampaign document generator, and the Server-Sent
Events chunked streaming emitter streamJSONResponse.

JavaScript strings are modelled as Lean String (operations go through the
character list s.data); JS Map is an insertion-ordered association list;
the interval timer plus the req close handler of streamJSONResponse are
modelled as a step relation on an explicit per-connection state driven by
a schedule of tick / close actions.
-/

/-- One Server-Sent-Events frame as written by streamJSONResponse: the
payload JSON.stringify of an object with a chunk string, a done flag and,
on the terminal frame only, the complete document.  The SSE wire framing
(the data: prefix and blank line) is abstracted away; frames are kept as
structured values in emission order. -/
structure SSEEvent (α : Type) where
  chunk : String
  done : Bool
  complete : Option α
deriving DecidableEq

/-- JavaScript s.slice(a, b) for 0 ≤ a ≤ b (the only use in the source is
jsonString.slice(index, index + 50)); the end bound is clamped to the
string length, and a start past the end yields the empty string. -/
def jsSlice (s : String) (a b : Nat) : String :=
  String.mk ((s.data.drop a).take (b - a))

/-- Per-connection state of one streamJSONResponse run: the cursor (called
index in the source) into the serialized string, whether the interval
timer is still registered (setInterval has been called and clearInterval
has not), the frames written so far in order, the number of times the
live timer was released (a clearInterval call that found the interval
still registered), and whether res.end has been called. -/
structure StreamState (α : Type) where
  index : Nat
  timerActive : Bool
  events : List (SSEEvent α)
  releases : Nat
  ended : Bool
deriving DecidableEq

/-- The two things that can wake a stream task: its interval timer firing,
or the transport reporting the client gone (the req close event). -/
inductive StreamAction where
  | tick
  | close
deriving DecidableEq

/-- State right after streamJSONResponse registers the interval:
cursor at 0, timer live, nothing written. -/
def initStreamState (α : Type) : StreamState α :=
  { index := 0, timerActive := true, events := [], releases := 0, ended := false }

/-- One cooperative step of the connection.  A tick runs the setInterval
callback (which fires only while the interval is registered): if
index < jsonString.length it writes the next 50-character chunk frame and
advances index by 50, otherwise it writes the terminal frame (empty
chunk, done true, complete document), clears the interval and ends the
response.  A close runs the req close handler: clearInterval (releasing
the timer if it was still registered; a second clearInterval is a no-op)
and res.end. -/
def streamStep (jsonString : String) (data : α) (st : StreamState α) :
    StreamAction → StreamState α
  | .tick =>
    if st.timerActive = false then st
    else if st.index < jsonString.length then
      { st with
        events := st.events ++ [⟨jsSlice jsonString st.index (st.index + 50), false, none⟩],
        index := st.index + 50 }
    else
      { st with
        events := st.events ++ [⟨"", true, some data⟩],
        timerActive := false, releases := st.releases + 1, ended := true }
  | .close =>
    if st.timerActive then
      { st with timerActive := false, releases := st.releases + 1, ended := true }
    else
      { st with ended := true }

/-- Run one streaming connection over a schedule of wake events. -/
def runStream (jsonString : String) (data : α) (acts : List StreamAction) : StreamState α :=
  acts.foldl (streamStep jsonString data) (initStreamState α)

/-- Number of non-terminal chunk frames for a serialized form of length L:
one per started block of 50 characters. -/
def totalChunks (s : String) : Nat :=
  (s.length + 49) / 50

/-- The successive chunks jsonString.slice(i, i+50) taken from offset i
until the cursor leaves the string: the chunk payloads the interval
callback writes, in order. -/
def chunksFromIdx (s : String) (i : Nat) : List String :=
  if i < s.length then jsSlice s i (i + 50) :: chunksFromIdx s (i + 50) else []
termination_by s.length - i
decreasing_by simp_wf; omega

/-- Concatenation of chunk payloads in emission order. -/
def concatChunks : List String → String
  | [] => ""
  | c :: cs => c ++ concatChunks cs

/-- The complete frame list of an undisturbed streamJSONResponse run: the
interval fires once per chunk and once more for the terminal frame, and
afterwards the interval is cleared so further ticks are no-ops. -/
def streamJSONResponse (stringify : α → String) (data : α) : List (SSEEvent α) :=
  (runStream (stringify data) data
    (List.replicate (totalChunks (stringify data) + 1) .tick)).events

/-- A user session: sessions.set(sessionId, \x7b connectedSources: [],
createdAt: Date.now() \x7d).  connectedSources keeps first-connection
order; createdAt is the Date.now() reading at creation. -/
structure Session where
  connectedSources : List String
  createdAt : Int
deriving DecidableEq

/-- The process-wide sessions Map, as an insertion-ordered association
list from session id to session. -/
abbrev Store := List (String × Session)

/-- sessions.has(k). -/
def storeHas (store : Store) (k : String) : Bool :=
  store.any (fun p => p.1 == k)

/-- sessions.get(k). -/
def storeGet? (store : Store) (k : String) : Option Session :=
  (store.find? (fun p => p.1 == k)).map (fun p => p.2)

/-- sessions.set(k, v): JS Map.set updates an existing key in place
(keeping its position) and appends an unseen key at the end. -/
def storeSet : Store → String → Session → Store
  | [], k, v => [(k, v)]
  | (k', v') :: rest, k, v =>
    if k' == k then (k, v) :: rest else (k', v') :: storeSet rest k v

/-- Demographics block of the Facebook Pixel mock data. -/
structure Demographics where
  age : String
  gender : String
  location : String
deriving DecidableEq

/-- mockData of the facebook-pixel entry of DATA_SOURCES.  Fractional JS
numbers that the server only ever interpolates into strings
(conversionRate) are kept as their JS string rendering. -/
structure FacebookPixelData where
  activeUsers : Nat
  pageViews : Nat
  conversionRate : String
  topPages : List String
  demographics : Demographics
deriving DecidableEq

/-- customerSegments block of the Shopify mock data. -/
structure CustomerSegments where
  highValue : Nat
  returning : Nat
  new : Nat
deriving DecidableEq

/-- mockData of the shopify entry of DATA_SOURCES.  averageOrderValue
(85.50) is only interpolated into an insight string, where JS renders it
as 85.5, so it is kept as that string. -/
structure ShopifyData where
  totalCustomers : Nat
  activeProducts : Nat
  averageOrderValue : String
  topProducts : List String
  recentOrders : Nat
  customerSegments : CustomerSegments
deriving DecidableEq

/-- mockData of the google-ads entry of DATA_SOURCES.  ctr and
costPerClick are only interpolated into strings and are kept as their JS
string renderings. -/
structure GoogleAdsData where
  impressions : Nat
  clicks : Nat
  ctr : String
  conversions : Nat
  costPerClick : String
  topKeywords : List String
  perfExcellent : Nat
  perfGood : Nat
  perfNeedsWork : Nat
deriving DecidableEq

/-- The per-source mock payload; each DATA_SOURCES entry carries the shape
of its own platform. -/
inductive MockData where
  | facebookPixel (d : FacebookPixelData)
  | shopify (d : ShopifyData)
  | googleAds (d : GoogleAdsData)
deriving DecidableEq

/-- One DATA_SOURCES entry: display name, source type, mock payload. -/
structure DataSource where
  name : String
  type : String
  mockData : MockData
deriving DecidableEq

/-- The facebook-pixel entry of DATA_SOURCES. -/
def facebookPixelSource : DataSource :=
  { name := "Facebook Pixel", type := "tracking",
    mockData := .facebookPixel
      { activeUsers := 15420, pageViews := 45230, conversionRate := "3.2",
        topPages := ["/products", "/checkout", "/about"],
        demographics := { age := "25-34", gender := "Mixed", location := "US, UK, CA" } } }

/-- The shopify entry of DATA_SOURCES. -/
def shopifySource : DataSource :=
  { name := "Shopify", type := "ecommerce",
    mockData := .shopify
      { totalCustomers := 8450, activeProducts := 234, averageOrderValue := "85.5",
        topProducts := ["Wireless Earbuds", "Smart Watch", "Phone Case"],
        recentOrders := 1250,
        customerSegments := { highValue := 850, returning := 3200, new := 4400 } } }

/-- The google-ads entry of DATA_SOURCES. -/
def googleAdsSource : DataSource :=
  { name := "Google Ads Tag", type := "advertising",
    mockData := .googleAds
      { impressions := 125000, clicks := 4500, ctr := "3.6", conversions := 180,
        costPerClick := "1.25",
        topKeywords := ["best headphones", "wireless earbuds", "smart watch deals"],
        perfExcellent := 45, perfGood := 35, perfNeedsWork := 20 } }

/-- The DATA_SOURCES object literal as a lookup over its own keys; a miss
models the absent own property.  JS bracket access additionally finds
the truthy members every plain object literal inherits from
Object.prototype — see objectPrototypeKeys and dataSourceTruthy, which
model the full access where the server consults its truthiness (the
connect validation). -/
def DATA_SOURCES (key : String) : Option DataSource :=
  if key = "facebook-pixel" then some facebookPixelSource
  else if key = "shopify" then some shopifySource
  else if key = "google-ads" then some googleAdsSource
  else none

/-- The property names JS bracket access finds on a plain object literal
even though they are not own keys: the members inherited from
Object.prototype.  Each of them evaluates to a truthy value (a built-in
function, or for __proto__ the prototype object itself), so a
`!obj[key]` check does not reject them. -/
def objectPrototypeKeys : List String :=
  ["constructor", "hasOwnProperty", "isPrototypeOf", "propertyIsEnumerable",
   "toLocaleString", "toString", "valueOf", "__defineGetter__", "__defineSetter__",
   "__lookupGetter__", "__lookupSetter__", "__proto__"]

/-- Truthiness of the JS access DATA_SOURCES[source] as tested by
`!DATA_SOURCES[source]` in the connect handler: own entries are truthy
objects and inherited Object.prototype members are truthy as well; only
a genuinely absent key yields the falsy undefined. -/
def dataSourceTruthy (source : String) : Bool :=
  (DATA_SOURCES source).isSome || objectPrototypeKeys.contains source

/-- The name property read off an inherited Object.prototype member: the
standard methods are built-in functions whose name is the property key
itself, except constructor (the Object constructor function, named
Object); the __proto__ object has no name property, and the undefined
read is kept as the undefined marker string. -/
def inheritedMemberName (key : String) : String :=
  if key = "constructor" then "Object"
  else if key = "__proto__" then "undefined"
  else key

/-- One CHANNELS entry.  avgEngagement (22.5 / 45.3 / 38.7 / 12.8) is only
ever interpolated into a string, so it is kept as its JS rendering. -/
structure ChannelInfo where
  name : String
  bestFor : List String
  avgEngagement : String
  cost : String
deriving DecidableEq

/-- The CHANNELS object literal as a lookup over its own keys.  As with
DATA_SOURCES, JS bracket access would also find the inherited truthy
Object.prototype members (objectPrototypeKeys); the lookups judged in
this development are at own keys (email, sms) or at genuinely absent
keys (smoke-signal), where own-key lookup and full bracket access
agree. -/
def CHANNELS (key : String) : Option ChannelInfo :=
  if key = "email" then
    some { name := "Email",
           bestFor := ["detailed content", "newsletters", "product launches"],
           avgEngagement := "22.5", cost := "low" }
  else if key = "sms" then
    some { name := "SMS",
           bestFor := ["urgent messages", "flash sales", "time-sensitive"],
           avgEngagement := "45.3", cost := "medium" }
  else if key = "whatsapp" then
    some { name := "WhatsApp",
           bestFor := ["personal engagement", "customer support", "order updates"],
           avgEngagement := "38.7", cost := "medium" }
  else if key = "ads" then
    some { name := "Ads",
           bestFor := ["broad reach", "brand awareness", "retargeting"],
           avgEngagement := "12.8", cost := "high" }
  else none

/-- DATA_SOURCES[s].name for a stored source id: the display name for an
own entry, the inherited member's name for an Object.prototype key (the
connect truthiness check lets those through).  Stored ids always pass
that check, so the final default — where the JS property chain would
throw on undefined — is unreachable for reachable stores and kept as
the undefined marker string. -/
def sourceDisplayName (s : String) : String :=
  match DATA_SOURCES s with
  | some ds => ds.name
  | none =>
    if objectPrototypeKeys.contains s then inheritedMemberName s
    else "undefined"

/-- Response of POST /api/connect.  The 400 error branch carries the error
message; the success branch carries the source display name and the
display names of all connected sources in first-connection order.  The
mockData echoed in the success body is static per-source data never read
by anything this development verifies and is not modelled. -/
inductive ConnectResult where
  | error (msg : String)
  | success (source : String) (connectedSources : List String)
deriving DecidableEq

/-- The POST /api/connect handler.  The `!DATA_SOURCES[source]` guard
rejects with a 400 and no state change exactly when the bracket access
is falsy — an absent key that is also no inherited Object.prototype
member; ids that are truthy (own entries, but also inherited members
such as toString) proceed: create the session lazily, add the source if
it is not already connected (the in-place push on the session object is
modelled as a set-back), and answer with the display names. -/
def connect (store : Store) (sessionId source : String) (now : Int) :
    ConnectResult × Store :=
  if dataSourceTruthy source = false then
    (.error "Invalid data source", store)
  else
    let store1 := if storeHas store sessionId then store
                  else storeSet store sessionId ⟨[], now⟩
    -- sessions.get(sessionId): present after the ensure step above, so the
    -- default of getD is unreachable
    let session := (storeGet? store1 sessionId).getD ⟨[], now⟩
    let session1 :=
      if session.connectedSources.contains source then session
      else { session with connectedSources := session.connectedSources ++ [source] }
    (.success (sourceDisplayName source) (session1.connectedSources.map sourceDisplayName),
      storeSet store1 sessionId session1)

/-- Well-formedness every reachable sessions map enjoys: no session stores
a duplicated source id (the idempotent add of connect). -/
def StoreWF (store : Store) : Prop :=
  ∀ k sess, storeGet? store k = some sess → sess.connectedSources.Nodup

/-- The wall-clock readings generateCampaign performs.  new Date() /
Date.now() instants are epoch milliseconds; toISOString,
toLocaleDateString and setHours(14,0,0,0) (calendar operations in the
server locale and timezone) are abstracted as functions of the
instant. -/
structure TimeEnv where
  ms : Int
  isoOfMs : Int → String
  localeDateOfMs : Int → String
  setHours14 : Int → Int

/-- The campaign section of the generated document. -/
structure CampaignInfo where
  id : String
  name : String
  type : String
  status : String
  createdAt : String
  dataSources : List String
  estimatedReach : Nat
  goals : List String
  insights : List String
deriving DecidableEq

/-- The audience section.  size is Math.floor(totalAudience * 0.35); the
multiplication is carried out in exact rational arithmetic (IEEE double
rounding of 0.35 is not modelled). -/
structure AudienceInfo where
  segment : String
  size : Int
  criteria : List String
  geography : List String
  expectedReachRate : String
deriving DecidableEq

/-- message.variations. -/
structure MessageVariations where
  short : String
  medium : String
  long : String
deriving DecidableEq

/-- message.personalization. -/
structure Personalization where
  enabled : Bool
  fields : List String
deriving DecidableEq

/-- The message section; subject is null except for email. -/
structure MessageInfo where
  primary : String
  subject : Option String
  variations : MessageVariations
  callToAction : String
  personalization : Personalization
deriving DecidableEq

/-- The channel section. -/
structure ChannelChoice where
  primary : String
  name : String
  reasoning : String
  fallback : String
  estimatedCost : String
  expectedEngagement : String
deriving DecidableEq

/-- timing.abTestSchedule. -/
structure ABTestSchedule where
  variantA : String
  variantB : String
deriving DecidableEq

/-- The timing section. -/
structure TimingInfo where
  optimal : String
  timezone : String
  reasoning : String
  sendWindow : String
  frequency : String
  abTestSchedule : ABTestSchedule
deriving DecidableEq

/-- A KPI target: either a literal string such as 25% or 8-12%, or the
dollar amount `$(...).toFixed(2)` kept as its exact rational value (the
toFixed / IEEE formatting is abstracted to the value). -/
inductive KpiTarget where
  | text (s : String)
  | amount (q : ℚ)
deriving DecidableEq

/-- One metrics.kpis entry; current is always null in the source. -/
structure Kpi where
  name : String
  target : KpiTarget
  current : Option String
deriving DecidableEq

/-- metrics.tracking.utmParameters. -/
structure UtmParameters where
  source : String
  medium : String
  campaign : String
deriving DecidableEq

/-- metrics.tracking. -/
structure TrackingInfo where
  utmParameters : UtmParameters
  conversionPixels : List String
  analyticsEnabled : Bool
deriving DecidableEq

/-- The metrics section. -/
structure MetricsInfo where
  kpis : List Kpi
  tracking : TrackingInfo
deriving DecidableEq

/-- budget.breakdown; distribution is the calculateDistributionCost dollar
amount kept as its exact rational value. -/
structure BudgetBreakdown where
  creative : String
  distribution : ℚ
  tools : String
deriving DecidableEq

/-- The budget section; estimated is the calculateBudget dollar amount
kept as its exact rational value. -/
structure BudgetInfo where
  estimated : ℚ
  breakdown : BudgetBreakdown
  roi_projection : String
deriving DecidableEq

/-- The execution section. -/
structure ExecutionInfo where
  readyToExecute : Bool
  requiredApprovals : List String
  estimatedSetupTime : String
  platforms : List String
  nextSteps : List String
deriving DecidableEq

/-- The generated campaign document. -/
structure Campaign where
  campaign : CampaignInfo
  audience : AudienceInfo
  message : MessageInfo
  channel : ChannelChoice
  timing : TimingInfo
  metrics : MetricsInfo
  budget : BudgetInfo
  execution : ExecutionInfo
deriving DecidableEq

/-- The audience and insight contribution of one connected source inside
the forEach of generateCampaign: the added totalAudience and the pushed
insight strings.  A source in DATA_SOURCES that matches none of the three
branches contributes nothing, like the if/else-if chain with no final
else; the constructor mismatches inside each branch are unreachable for
the concrete DATA_SOURCES table. -/
def sourceContribution (source : String) (ds : DataSource) : Nat × List String :=
  if source = "facebook-pixel" then
    match ds.mockData with
    | .facebookPixel d =>
      (d.activeUsers,
       ["High engagement on " ++ String.intercalate ", " d.topPages,
        "Primary demographic: " ++ d.demographics.age ++ " from " ++ d.demographics.location])
    | _ => (0, [])
  else if source = "shopify" then
    match ds.mockData with
    | .shopify d =>
      (d.totalCustomers,
       [toString d.customerSegments.highValue ++ " high-value customers identified",
        "Top products: " ++ String.intercalate ", " d.topProducts,
        "Average order value: $" ++ d.averageOrderValue])
    | _ => (0, [])
  else if source = "google-ads" then
    match ds.mockData with
    | .googleAds d =>
      (0,
       ["Strong performance on keywords: " ++ String.intercalate ", " (d.topKeywords.take 2),
        "Current CTR: " ++ d.ctr ++ "% with " ++ toString d.conversions ++ " conversions"])
    | _ => (0, [])
  else (0, [])

/-- The connectedSources.forEach aggregation: walk the sources in order
accumulating totalAudience and insights.  `DATA_SOURCES[source].mockData`
throws, modelled as none, exactly when the bracket access itself is
undefined — an id that is neither an own key nor an inherited
Object.prototype member; an inherited member (storable through the
connect truthiness flaw) reads mockData as undefined and then matches
no branch of the if/else-if chain, contributing nothing. -/
def aggregateSources : List String → Option (Nat × List String)
  | [] => some (0, [])
  | s :: rest =>
    if dataSourceTruthy s = false then none
    else
      let head :=
        match DATA_SOURCES s with
        | some ds => sourceContribution s ds
        | none => (0, [])
      do
        let tail ← aggregateSources rest
        return (head.1 + tail.1, head.2 ++ tail.2)

/-- The intelligent channel selection of generateCampaign: the chosen
channel id and the reasoning string.  selectedChannels[0] is only read
under the length > 0 guard, so the headD default is unreachable. -/
def selectChannel (campaignType : String) (selectedChannels : List String)
    (totalAudience : Nat) : String × String :=
  if selectedChannels.length > 0 then
    if campaignType = "flash-sale" ∨ campaignType = "urgent" then
      let sc := if selectedChannels.contains "sms" then "sms" else selectedChannels.headD "email"
      (sc, "Using your selected channel: " ++ sc ++ " (optimized for urgency)")
    else if campaignType = "product-launch" ∨ campaignType = "detailed" then
      let sc := if selectedChannels.contains "email" then "email" else selectedChannels.headD "email"
      (sc, "Using your selected channel: " ++ sc ++ " (optimized for detailed content)")
    else if campaignType = "retargeting" ∨ campaignType = "awareness" then
      let sc := if selectedChannels.contains "ads" then "ads" else selectedChannels.headD "email"
      (sc, "Using your selected channel: " ++ sc ++ " (optimized for broad reach)")
    else
      let sc := selectedChannels.headD "email"
      (sc, "Using your selected channel: " ++ sc)
  else
    if campaignType = "flash-sale" ∨ campaignType = "urgent" then
      ("sms", "SMS chosen for high urgency and immediate engagement (45.3% avg open rate)")
    else if campaignType = "product-launch" ∨ campaignType = "detailed" then
      ("email", "Email chosen for detailed product information and visual content")
    else if campaignType = "retargeting" ∨ campaignType = "awareness" then
      ("ads", "Ads chosen for broad reach and retargeting capabilities")
    else if totalAudience < 5000 then
      ("whatsapp", "WhatsApp chosen for personalized engagement with smaller audience")
    else
      ("email", "Email chosen for cost-effective reach with detailed messaging")

/-- The per-channel unit costs shared by calculateBudget and
calculateDistributionCost; an unknown channel makes the JS arithmetic
produce NaN, modelled as none (it can only occur when the CHANNELS lookup
in the same document already failed). -/
def channelUnitCost (channel : String) : Option ℚ :=
  if channel = "email" then some (1 / 100)
  else if channel = "sms" then some (5 / 100)
  else if channel = "whatsapp" then some (3 / 100)
  else if channel = "ads" then some (1 / 2)
  else none

/-- calculateBudget(audienceSize, channel): audienceSize * costs[channel],
as an exact rational dollar amount. -/
def calculateBudget (audienceSize : ℚ) (channel : String) : Option ℚ :=
  (channelUnitCost channel).map (fun c => audienceSize * c)

/-- calculateDistributionCost(audienceSize, channel): identical table and
formula. -/
def calculateDistributionCost (audienceSize : ℚ) (channel : String) : Option ℚ :=
  (channelUnitCost channel).map (fun c => audienceSize * c)

/-- getPlatformsForChannel(channel): total, with the || [] default. -/
def getPlatformsForChannel (channel : String) : List String :=
  if channel = "email" then ["SendGrid", "Mailchimp", "AWS SES"]
  else if channel = "sms" then ["Twilio", "MessageBird", "AWS SNS"]
  else if channel = "whatsapp" then ["Twilio WhatsApp API", "WhatsApp Business API"]
  else if channel = "ads" then ["Facebook Ads", "Google Ads", "TikTok Ads"]
  else []

/-- generateCampaign(connectedSources, campaignType, selectedChannels).
env carries the wall-clock readings (new Date(), Date.now()) and
campaignId the uuidv4() draw, the two external inputs of the function.
none models the TypeError thrown by the unguarded property chains on an
unknown source or channel id; the CHANNELS[selectedChannel] chain is the
one that fires for an unknown selected channel (calculateBudget alone
would only produce a NaN). -/
def generateCampaign (env : TimeEnv) (campaignId : String)
    (connectedSources : List String) (campaignType : String)
    (selectedChannels : List String) : Option Campaign := do
  let timestamp := env.isoOfMs env.ms
  let agg ← aggregateSources connectedSources
  let totalAudience := agg.1
  let insights := agg.2
  let sel := selectChannel campaignType selectedChannels totalAudience
  let selectedChannel := sel.1
  let channelReasoning := sel.2
  -- const optimalTime = new Date(now.getTime() + 2*24*60*60*1000); optimalTime.setHours(14,0,0,0)
  let optimalMs := env.setHours14 (env.ms + 2 * 24 * 60 * 60 * 1000)
  let msg :=
    if connectedSources.contains "shopify" then
      match shopifySource.mockData with
      | .shopify d =>
        ("Exclusive offer for our valued customers! Get 20% off on " ++
           d.topProducts.headD "undefined" ++
           " and other premium products. Limited time only!",
         "High-value returning customers",
         ["Purchase history: 2+ orders in last 90 days",
          "Average order value: $50+",
          "Active engagement: Last visit within 14 days",
          "Location: US, UK, CA"])
      | _ =>
        ("", "", [])
    else
      ("Special promotion just for you! Discover amazing deals on our best products.",
       "Active engaged users",
       ["Active in last 30 days",
        "Engaged with product pages",
        "Primary demographic: 25-34 years old"])
  let messageContent := msg.1
  let audienceSegment := msg.2.1
  let audienceCriteria := msg.2.2
  let ch ← CHANNELS selectedChannel
  let estimated ← calculateBudget ((totalAudience : ℚ) * (35 / 100)) selectedChannel
  let distribution ← calculateDistributionCost ((totalAudience : ℚ) * (35 / 100)) selectedChannel
  return {
      campaign :=
        { id := campaignId,
          name := "AI-Generated Campaign - " ++ env.localeDateOfMs env.ms,
          type := campaignType,
          status := "draft",
          createdAt := timestamp,
          dataSources := connectedSources.map sourceDisplayName,
          estimatedReach := totalAudience,
          goals :=
            ["Increase conversion rate by 15-20%",
             "Boost customer engagement",
             "Drive sales within 48 hours"],
          insights := insights },
      audience :=
        { segment := audienceSegment,
          size := Int.floor ((totalAudience : ℚ) * (35 / 100)),
          criteria := audienceCriteria,
          geography := ["United States", "United Kingdom", "Canada"],
          expectedReachRate := "85-90%" },
      message :=
        { primary := messageContent,
          subject :=
            if selectedChannel = "email" then some "🎉 Exclusive Offer Inside - Limited Time!"
            else none,
          variations :=
            { short := String.mk (messageContent.data.take 80) ++ "... Shop now!",
              medium := messageContent,
              long := messageContent ++
                "\n\nWhy shop with us?\n✓ Free shipping on orders over $50\n✓ 30-day money-back guarantee\n✓ 24/7 customer support\n\nDon't miss out on this exclusive opportunity!" },
          callToAction := "Shop Now",
          personalization :=
            { enabled := true,
              fields := ["firstName", "lastPurchase", "favoriteCategory"] } },
      channel :=
        { primary := selectedChannel,
          name := ch.name,
          reasoning := channelReasoning,
          fallback := if selectedChannel = "sms" then "email" else "sms",
          estimatedCost := ch.cost,
          expectedEngagement := ch.avgEngagement ++ "%" },
      timing :=
        { optimal := env.isoOfMs optimalMs,
          timezone := "America/New_York",
          reasoning := "Peak engagement window based on historical data (2 PM local time)",
          sendWindow := "2-4 PM local time",
          frequency := "one-time",
          abTestSchedule :=
            { variantA := env.isoOfMs optimalMs,
              variantB := env.isoOfMs (optimalMs + 3600000) } },
      metrics :=
        { kpis :=
            [{ name := "Open Rate",
               target := .text (if selectedChannel = "email" then "25%"
                 else if selectedChannel = "sms" then "45%" else "35%"),
               current := none },
             { name := "Click-Through Rate", target := .text "8-12%", current := none },
             { name := "Conversion Rate", target := .text "4-6%", current := none },
             { name := "Revenue Generated",
               target := .amount ((totalAudience : ℚ) * (35 / 100) * (5 / 100) * (171 / 2)),
               current := none }],
          tracking :=
            { utmParameters :=
                { source := "markopolo", medium := selectedChannel, campaign := campaignId },
              conversionPixels :=
                if connectedSources.contains "facebook-pixel" then ["Facebook Pixel"] else [],
              analyticsEnabled := true } },
      budget :=
        { estimated := estimated,
          breakdown :=
            { creative := "$200", distribution := distribution, tools := "$50" },
          roi_projection := "450-600%" },
      execution :=
        { readyToExecute := true,
          requiredApprovals := ["Marketing Manager", "Budget Holder"],
          estimatedSetupTime := "15-30 minutes",
          platforms := getPlatformsForChannel selectedChannel,
          nextSteps :=
            ["Review and approve campaign",
             "Finalize creative assets",
             "Set up tracking parameters",
             "Schedule campaign",
             "Monitor performance dashboard"] } }

/-- The `req.query.x || default` idiom: undefined and the empty string are
falsy. -/
def jsQueryOr (param : Option String) (dflt : String) : String :=
  match param with
  | none => dflt
  | some s => if s = "" then dflt else s

/-- JS String.prototype.split(',') on the character list: split at every
comma, keeping empty pieces. -/
def splitCommaChars : List Char → List (List Char)
  | [] => [[]]
  | c :: rest =>
    if c = ',' then [] :: splitCommaChars rest
    else
      match splitCommaChars rest with
      | [] => [[c]] -- unreachable: splitCommaChars always returns a nonempty list
      | piece :: pieces => (c :: piece) :: pieces

/-- JS s.split(','). -/
def jsSplitComma (s : String) : List String :=
  (splitCommaChars s.data).map String.mk

/-- `req.query.channels ? req.query.channels.split(',') : []`. -/
def parseChannels (param : Option String) : List String :=
  match param with
  | none => []
  | some s => if s = "" then [] else jsSplitComma s

/-- Outcome of one GET /api/generate-campaign request.  validationError is
the ordinary 400 JSON body returned before the SSE headers are set and
before the generator runs; the other two constructors are reached only
after the three SSE headers (text/event-stream, no-cache, keep-alive)
have been written: streamed is a completed streamJSONResponse frame list,
generationFailed is the TypeError escaping generateCampaign mid-request,
after the headers but before any frame. -/
inductive GenerateResult where
  | validationError (error : String)
  | streamed (events : List (SSEEvent Campaign))
  | generationFailed
deriving DecidableEq

/-- The GET /api/generate-campaign handler.  gen is the document
generator the endpoint delegates to (generateCampaign with its wall-clock
and uuid inputs applied) and stringify the ambient
JSON.stringify(-, null, 2); the store is returned unchanged alongside the
result, since the handler only reads it. -/
def handleGenerateCampaign
    (gen : List String → String → List String → Option Campaign)
    (stringify : Campaign → String) (store : Store)
    (sessionIdParam typeParam channelsParam : Option String) :
    GenerateResult × Store :=
  let campaignType := jsQueryOr typeParam "general"
  let selectedChannels := parseChannels channelsParam
  -- sessions.has(sessionId) followed by sessions.get(sessionId)
  match sessionIdParam.bind (storeGet? store) with
  | none => (.validationError "No session found. Please connect data sources first.", store)
  | some session =>
    if session.connectedSources.length = 0 then
      (.validationError "No data sources connected", store)
    else
      -- the SSE headers are set here; everything below is post-header
      match gen session.connectedSources campaignType selectedChannels with
      | none => (.generationFailed, store)
      | some campaign => (.streamed (streamJSONResponse stringify campaign), store)

/-- The complete document attached to the terminal frame of a streamed
result, when the stream ended with one. -/
def terminalDocument : GenerateResult → Option Campaign
  | .streamed evs =>
    match evs.getLast? with
    | some e => if e.done then e.complete else none
    | none => none
  | _ => none

/-- A fixed wall-clock environment used for concrete evaluations. -/
def testTimeEnv : TimeEnv :=
  { ms := 0,
    isoOfMs := fun _ => "1970-01-01T00:00:00.000Z",
    localeDateOfMs := fun _ => "1/1/1970",
    setHours14 := fun m => m }

/-- A fixed serializer stand-in used for concrete evaluations. -/
def testStringify : Campaign → String :=
  fun _ => ""

/-- A fixed 60-character serialized form used for concrete evaluations of
the emitter (two chunks: one full, one of 10 characters). -/
def testJson : String :=
  "012345678901234567890123456789012345678901234567890123456789"

/-- A fixed 10-character serialized form (a minimal JSON object text)
whose length is not a multiple of the 50-character chunk size. -/
def testJson10 : String :=
  "\x7b\"a\":\"bc\"\x7d"

theorem stringMk_append (l1 l2 : List Char) :
    String.mk (l1 ++ l2) = String.mk l1 ++ String.mk l2 := rfl

theorem string_length_data (s : String) : s.length = s.data.length := rfl

theorem concatChunks_chunksFromIdx_fuel (s : String) :
    ∀ (n i : Nat), s.length - i ≤ n →
      concatChunks (chunksFromIdx s i) = String.mk (s.data.drop i) := by
  intro n
  induction n with
  | zero =>
    intro i h
    have hi : ¬ i < s.length := by omega
    rw [chunksFromIdx, if_neg hi]
    have hlen : s.data.length ≤ i := by
      have := string_length_data s; omega
    rw [List.drop_eq_nil_of_le hlen]
    rfl
  | succ n ih =>
    intro i h
    by_cases hi : i < s.length
    · rw [chunksFromIdx, if_pos hi]
      show jsSlice s i (i + 50) ++ concatChunks (chunksFromIdx s (i + 50)) =
        String.mk (s.data.drop i)
      rw [ih (i + 50) (by omega)]
      rw [jsSlice]
      have h50 : i + 50 - i = 50 := by omega
      rw [h50]
      have hdd : s.data.drop (i + 50) = (s.data.drop i).drop 50 := by
        rw [List.drop_drop, Nat.add_comm]
      rw [hdd, ← stringMk_append, List.take_append_drop]
    · rw [chunksFromIdx, if_neg hi]
      have hlen : s.data.length ≤ i := by
        have := string_length_data s; omega
      rw [List.drop_eq_nil_of_le hlen]
      rfl

theorem concatChunks_chunksFromIdx (s : String) :
    concatChunks (chunksFromIdx s 0) = s := by
  rw [concatChunks_chunksFromIdx_fuel s s.length 0 (by omega)]
  rw [List.drop_zero]

theorem lt_chunksFromIdx_length (s : String) :
    ∀ (k i : Nat), i + 50 * k < s.length → k < (chunksFromIdx s i).length := by
  intro k
  induction k with
  | zero =>
    intro i h
    have hi : i < s.length := by omega
    rw [chunksFromIdx, if_pos hi]
    simp
  | succ k ih =>
    intro i h
    have hi : i < s.length := by omega
    rw [chunksFromIdx, if_pos hi]
    have := ih (i + 50) (by omega)
    simpa using this

theorem totalChunks_bound (s : String) (k : Nat) (h : k < totalChunks s) :
    50 * k < s.length := by
  unfold totalChunks at h
  have h1 : 50 * (k + 1) ≤ 50 * ((s.length + 49) / 50) :=
    Nat.mul_le_mul_left 50 h
  have h2 : (s.length + 49) / 50 * 50 ≤ s.length + 49 :=
    Nat.div_mul_le_self (s.length + 49) 50
  omega

theorem chunksFromIdx_length_eq (s : String) :
    ∀ (n i : Nat), s.length - i ≤ n →
      (chunksFromIdx s i).length = (s.length - i + 49) / 50 := by
  intro n
  induction n with
  | zero =>
    intro i h
    have hi : ¬ i < s.length := by omega
    rw [chunksFromIdx, if_neg hi]
    simp only [List.length_nil]
    omega
  | succ n ih =>
    intro i h
    by_cases hi : i < s.length
    · rw [chunksFromIdx, if_pos hi]
      simp only [List.length_cons]
      rw [ih (i + 50) (by omega)]
      omega
    · rw [chunksFromIdx, if_neg hi]
      simp only [List.length_nil]
      omega

theorem totalChunks_eq_length (s : String) :
    totalChunks s = (chunksFromIdx s 0).length := by
  rw [chunksFromIdx_length_eq s s.length 0 (by omega), totalChunks]
  omega

theorem runStream_ticks_from (s : String) (d : α) :
    ∀ (n i : Nat) (evs : List (SSEEvent α)) (r : Nat), s.length - i ≤ n →
      (List.replicate ((chunksFromIdx s i).length + 1) StreamAction.tick).foldl
          (streamStep s d) ⟨i, true, evs, r, false⟩ =
        ⟨i + 50 * (chunksFromIdx s i).length, false,
          evs ++ (chunksFromIdx s i).map (fun c => ⟨c, false, none⟩) ++ [⟨"", true, some d⟩],
          r + 1, true⟩ := by
  intro n
  induction n with
  | zero =>
    intro i evs r h
    have hi : ¬ i < s.length := by omega
    rw [chunksFromIdx, if_neg hi]
    simp [streamStep, hi]
  | succ n ih =>
    intro i evs r h
    by_cases hi : i < s.length
    · rw [chunksFromIdx, if_pos hi]
      simp only [List.length_cons]
      rw [List.replicate_succ, List.foldl_cons]
      have hstep : streamStep s d ⟨i, true, evs, r, false⟩ .tick =
          ⟨i + 50, true, evs ++ [⟨jsSlice s i (i + 50), false, none⟩], r, false⟩ := by
        simp [streamStep, hi]
      rw [hstep, ih (i + 50) _ r (by omega)]
      simp only [StreamState.mk.injEq, List.map_cons]
      and_intros <;> first | omega | simp
    · rw [chunksFromIdx, if_neg hi]
      simp [streamStep, hi]

theorem streamJSONResponse_spec (f : α → String) (d : α) :
    streamJSONResponse f d =
      (chunksFromIdx (f d) 0).map (fun c => ⟨c, false, none⟩) ++ [⟨"", true, some d⟩] := by
  rw [streamJSONResponse, totalChunks_eq_length, runStream, initStreamState]
  rw [runStream_ticks_from (f d) d (f d).length 0 [] 0 (by omega)]
  simp

theorem runStream_partial_ticks (s : String) (d : α) :
    ∀ (k i : Nat) (evs : List (SSEEvent α)) (r : Nat),
      k ≤ (chunksFromIdx s i).length →
      (List.replicate k StreamAction.tick).foldl (streamStep s d) ⟨i, true, evs, r, false⟩ =
        ⟨i + 50 * k, true,
          evs ++ ((chunksFromIdx s i).take k).map (fun c => ⟨c, false, none⟩), r, false⟩ := by
  intro k
  induction k with
  | zero => intro i evs r h; simp
  | succ k ih =>
    intro i evs r h
    have hi : i < s.length := by
      by_contra hc
      rw [chunksFromIdx, if_neg hc] at h
      simp at h
    rw [chunksFromIdx, if_pos hi] at h ⊢
    simp only [List.length_cons] at h
    rw [List.replicate_succ, List.foldl_cons]
    have hstep : streamStep s d ⟨i, true, evs, r, false⟩ .tick =
        ⟨i + 50, true, evs ++ [⟨jsSlice s i (i + 50), false, none⟩], r, false⟩ := by
      simp [streamStep, hi]
    rw [hstep, ih (i + 50) _ r (by omega)]
    simp only [StreamState.mk.injEq, List.take_succ_cons, List.map_cons]
    and_intros <;> first | omega | simp

theorem foldl_dead (s : String) (d : α) :
    ∀ (acts : List StreamAction) (i : Nat) (evs : List (SSEEvent α)) (r : Nat) (e : Bool),
      ∃ e2, acts.foldl (streamStep s d) ⟨i, false, evs, r, e⟩ = ⟨i, false, evs, r, e2⟩ := by
  intro acts
  induction acts with
  | nil => intro i evs r e; exact ⟨e, rfl⟩
  | cons a rest ih =>
    intro i evs r e
    cases a with
    | tick =>
      have hstep : streamStep s d ⟨i, false, evs, r, e⟩ .tick = ⟨i, false, evs, r, e⟩ := by
        simp [streamStep]
      rw [List.foldl_cons, hstep]
      exact ih i evs r e
    | close =>
      have hstep : streamStep s d ⟨i, false, evs, r, e⟩ .close = ⟨i, false, evs, r, true⟩ := by
        simp [streamStep]
      rw [List.foldl_cons, hstep]
      exact ih i evs r true

theorem streamStep_releases_inv (s : String) (d : α) (st : StreamState α) (a : StreamAction)
    (h1 : st.releases ≤ 1) (h2 : st.timerActive = true → st.releases = 0) :
    (streamStep s d st a).releases ≤ 1 ∧
    ((streamStep s d st a).timerActive = true → (streamStep s d st a).releases = 0) := by
  cases a with
  | tick =>
    cases hT : st.timerActive with
    | false =>
      have hstep : streamStep s d st .tick = st := by simp [streamStep, hT]
      rw [hstep]; exact ⟨h1, h2⟩
    | true =>
      have hr0 : st.releases = 0 := h2 hT
      by_cases hi : st.index < s.length
      · have hstep : streamStep s d st .tick =
            { st with
              events := st.events ++ [⟨jsSlice s st.index (st.index + 50), false, none⟩],
              index := st.index + 50 } := by
          simp [streamStep, hT, hi]
        rw [hstep]; exact ⟨h1, h2⟩
      · have hstep : streamStep s d st .tick =
            { st with
              events := st.events ++ [⟨"", true, some d⟩],
              timerActive := false, releases := st.releases + 1, ended := true } := by
          simp [streamStep, hT, hi]
        rw [hstep]
        refine ⟨by simp [hr0], ?_⟩
        intro h
        simp at h
  | close =>
    cases hT : st.timerActive with
    | false =>
      have hstep : streamStep s d st .close = { st with ended := true } := by
        simp [streamStep, hT]
      rw [hstep]; exact ⟨h1, h2⟩
    | true =>
      have hr0 : st.releases = 0 := h2 hT
      have hstep : streamStep s d st .close =
          { st with timerActive := false, releases := st.releases + 1, ended := true } := by
        simp [streamStep, hT]
      rw [hstep]
      refine ⟨by simp [hr0], ?_⟩
      intro h
      simp at h

theorem foldl_releases_inv (s : String) (d : α) :
    ∀ (acts : List StreamAction) (st : StreamState α),
      st.releases ≤ 1 → (st.timerActive = true → st.releases = 0) →
      (acts.foldl (streamStep s d) st).releases ≤ 1 := by
  intro acts
  induction acts with
  | nil => intro st h1 _; exact h1
  | cons a rest ih =>
    intro st h1 h2
    rw [List.foldl_cons]
    have := streamStep_releases_inv s d st a h1 h2
    exact ih _ this.1 this.2

theorem streamStep_index_inv (s : String) (d : α) (st : StreamState α) (a : StreamAction)
    (h1 : st.index ≤ s.length + 49)
    (h2 : st.events.any (fun e => e.done) = true → s.length ≤ st.index) :
    (streamStep s d st a).index ≤ s.length + 49 ∧
    ((streamStep s d st a).events.any (fun e => e.done) = true →
      s.length ≤ (streamStep s d st a).index) := by
  cases a with
  | tick =>
    cases hT : st.timerActive with
    | false =>
      have hstep : streamStep s d st .tick = st := by simp [streamStep, hT]
      rw [hstep]; exact ⟨h1, h2⟩
    | true =>
      by_cases hi : st.index < s.length
      · have hstep : streamStep s d st .tick =
            { st with
              events := st.events ++ [⟨jsSlice s st.index (st.index + 50), false, none⟩],
              index := st.index + 50 } := by
          simp [streamStep, hT, hi]
        rw [hstep]
        refine ⟨by simp; omega, ?_⟩
        simp only [List.any_append, List.any_cons, List.any_nil, Bool.or_false]
        intro h
        have := h2 (by simpa using h)
        omega
      · have hstep : streamStep s d st .tick =
            { st with
              events := st.events ++ [⟨"", true, some d⟩],
              timerActive := false, releases := st.releases + 1, ended := true } := by
          simp [streamStep, hT, hi]
        rw [hstep]
        exact ⟨h1, fun _ => by simp; omega⟩
  | close =>
    cases hT : st.timerActive with
    | false =>
      have hstep : streamStep s d st .close = { st with ended := true } := by
        simp [streamStep, hT]
      rw [hstep]; exact ⟨h1, h2⟩
    | true =>
      have hstep : streamStep s d st .close =
          { st with timerActive := false, releases := st.releases + 1, ended := true } := by
        simp [streamStep, hT]
      rw [hstep]; exact ⟨h1, h2⟩

theorem foldl_index_inv (s : String) (d : α) :
    ∀ (acts : List StreamAction) (st : StreamState α),
      st.index ≤ s.length + 49 →
      (st.events.any (fun e => e.done) = true → s.length ≤ st.index) →
      (acts.foldl (streamStep s d) st).index ≤ s.length + 49 ∧
      ((acts.foldl (streamStep s d) st).events.any (fun e => e.done) = true →
        s.length ≤ (acts.foldl (streamStep s d) st).index) := by
  intro acts
  induction acts with
  | nil => intro st h1 h2; exact ⟨h1, h2⟩
  | cons a rest ih =>
    intro st h1 h2
    rw [List.foldl_cons]
    have := streamStep_index_inv s d st a h1 h2
    exact ih _ this.1 this.2

theorem streamStep_index_mono (s : String) (d : α) (st : StreamState α) (a : StreamAction) :
    st.index ≤ (streamStep s d st a).index := by
  cases a with
  | tick =>
    cases hT : st.timerActive with
    | false => simp [streamStep, hT]
    | true =>
      by_cases hi : st.index < s.length
      · simp [streamStep, hT, hi]
      · simp [streamStep, hT, hi]
  | close =>
    cases hT : st.timerActive with
    | false => simp [streamStep, hT]
    | true => simp [streamStep, hT]

theorem runStream_snoc (s : String) (d : α) (acts : List StreamAction) (a : StreamAction) :
    runStream s d (acts ++ [a]) = streamStep s d (runStream s d acts) a := by
  simp [runStream, List.foldl_append]

theorem storeGet?_set_self (k : String) (v : Session) :
    ∀ st : Store, storeGet? (storeSet st k v) k = some v := by
  intro st
  induction st with
  | nil => simp [storeSet, storeGet?]
  | cons p rest ih =>
    obtain ⟨k', v'⟩ := p
    by_cases h : k' = k
    · simp [storeSet, storeGet?, h]
    · have hb : (k' == k) = false := by simp [h]
      simp only [storeSet, hb, Bool.false_eq_true, if_false]
      simp only [storeGet?, List.find?, hb]
      exact ih

theorem storeHas_set_self (k : String) (v : Session) :
    ∀ st : Store, storeHas (storeSet st k v) k = true := by
  intro st
  induction st with
  | nil => simp [storeSet, storeHas]
  | cons p rest ih =>
    obtain ⟨k', v'⟩ := p
    by_cases h : k' = k
    · simp [storeSet, storeHas, h]
    · have hb : (k' == k) = false := by simp [h]
      simp only [storeSet, hb, Bool.false_eq_true, if_false]
      simp only [storeHas, List.any_cons, hb, Bool.false_or]
      exact ih

theorem storeHas_isSome (k : String) :
    ∀ st : Store, storeHas st k = (storeGet? st k).isSome := by
  intro st
  induction st with
  | nil => simp [storeHas, storeGet?]
  | cons p rest ih =>
    obtain ⟨k', v'⟩ := p
    by_cases h : k' = k
    · simp [storeHas, storeGet?, List.find?, h]
    · have hb : (k' == k) = false := by simp [h]
      simp only [storeHas, List.any_cons, hb, Bool.false_or, storeGet?, List.find?]
      exact ih

theorem storeSet_eq_of_get (k : String) (v : Session) :
    ∀ st : Store, storeGet? st k = some v → storeSet st k v = st := by
  intro st
  induction st with
  | nil => intro h; simp [storeGet?] at h
  | cons p rest ih =>
    obtain ⟨k', v'⟩ := p
    intro h
    by_cases hk : k' = k
    · have hb : (k' == k) = true := by simp [hk]
      have hv : v' = v := by
        simp [storeGet?, List.find?, hb] at h
        exact h
      simp [storeSet, hb, hk, hv]
    · have hb : (k' == k) = false := by simp [hk]
      simp only [storeGet?, List.find?, hb] at h
      simp only [storeSet, hb, Bool.false_eq_true, if_false]
      rw [ih h]

theorem storeGet?_set_ne (k k2 : String) (v : Session) (hne : k2 ≠ k) :
    ∀ st : Store, storeGet? (storeSet st k v) k2 = storeGet? st k2 := by
  intro st
  induction st with
  | nil =>
    have hb : (k == k2) = false := by simpa using Ne.symm hne
    simp [storeSet, storeGet?, List.find?, hb]
  | cons p rest ih =>
    obtain ⟨k', v'⟩ := p
    by_cases h : k' = k
    · have hb : (k' == k) = true := by simp [h]
      have hb2 : (k == k2) = false := by simpa using Ne.symm hne
      have hb3 : (k' == k2) = false := by
        subst h; exact hb2
      simp [storeSet, storeGet?, List.find?, hb, hb2, hb3]
    · have hb : (k' == k) = false := by simp [h]
      simp only [storeSet, hb, Bool.false_eq_true, if_false]
      simp only [storeGet?, List.find?]
      cases hc : (k' == k2) with
      | true => rfl
      | false => exact ih

theorem dataSourceTruthy_of_some (src : String) (ds : DataSource)
    (hds : DATA_SOURCES src = some ds) : dataSourceTruthy src = true := by
  simp [dataSourceTruthy, hds]

theorem connect_invalid (store : Store) (sid src : String) (t : Int)
    (h1 : DATA_SOURCES src = none) (h2 : objectPrototypeKeys.contains src = false) :
    connect store sid src t = (.error "Invalid data source", store) := by
  have ht : dataSourceTruthy src = false := by
    simp only [dataSourceTruthy, h1, Option.isSome_none, Bool.false_or]
    exact h2
  simp [connect, ht]

theorem connect_existing_member (store : Store) (sid src : String) (t : Int)
    (ds : DataSource) (sess : Session)
    (hds : DATA_SOURCES src = some ds)
    (hget : storeGet? store sid = some sess)
    (hcont : sess.connectedSources.contains src = true) :
    connect store sid src t =
      (.success ds.name (sess.connectedSources.map sourceDisplayName), store) := by
  have hhas : storeHas store sid = true := by
    rw [storeHas_isSome, hget]; rfl
  have ht : dataSourceTruthy src = true := dataSourceTruthy_of_some src ds hds
  simp only [connect, ht, Bool.true_eq_false, if_false, hhas, if_true, hget,
    Option.getD_some, hcont]
  rw [storeSet_eq_of_get sid sess store hget]
  simp [sourceDisplayName, hds]

theorem connect_existing_add (store : Store) (sid src : String) (t : Int)
    (ds : DataSource) (sess : Session)
    (hds : DATA_SOURCES src = some ds)
    (hget : storeGet? store sid = some sess)
    (hcont : sess.connectedSources.contains src = false) :
    connect store sid src t =
      (.success ds.name ((sess.connectedSources ++ [src]).map sourceDisplayName),
        storeSet store sid
          { sess with connectedSources := sess.connectedSources ++ [src] }) := by
  have hhas : storeHas store sid = true := by
    rw [storeHas_isSome, hget]; rfl
  have ht : dataSourceTruthy src = true := dataSourceTruthy_of_some src ds hds
  simp only [connect, ht, Bool.true_eq_false, if_false, hhas, if_true, hget,
    Option.getD_some, hcont, Bool.false_eq_true]
  simp [sourceDisplayName, hds]

theorem connect_fresh (store : Store) (sid src : String) (t : Int) (ds : DataSource)
    (hds : DATA_SOURCES src = some ds) (hfresh : storeHas store sid = false) :
    connect store sid src t =
      (.success ds.name [ds.name],
        storeSet (storeSet store sid ⟨[], t⟩) sid ⟨[src], t⟩) := by
  have ht : dataSourceTruthy src = true := dataSourceTruthy_of_some src ds hds
  simp only [connect, ht, Bool.true_eq_false, if_false, hfresh, Bool.false_eq_true]
  rw [storeGet?_set_self sid ⟨[], t⟩ store]
  simp [sourceDisplayName, hds]

theorem connect_result_session (store : Store) (sid src : String) (t : Int)
    (ds : DataSource) (hds : DATA_SOURCES src = some ds) (hwf : StoreWF store) :
    ∃ sess : Session,
      storeGet? (connect store sid src t).2 sid = some sess ∧
      sess.connectedSources.contains src = true ∧
      sess.connectedSources.Nodup ∧
      (connect store sid src t).1 =
        .success ds.name (sess.connectedSources.map sourceDisplayName) := by
  cases hhas : storeHas store sid with
  | false =>
    refine ⟨⟨[src], t⟩, ?_, by simp, by simp, ?_⟩
    · rw [connect_fresh store sid src t ds hds hhas]
      exact storeGet?_set_self sid ⟨[src], t⟩ (storeSet store sid ⟨[], t⟩)
    · rw [connect_fresh store sid src t ds hds hhas]
      simp [sourceDisplayName, hds]
  | true =>
    have hsome : (storeGet? store sid).isSome := by
      rw [← storeHas_isSome]; exact hhas
    obtain ⟨sess0, hget⟩ := Option.isSome_iff_exists.mp hsome
    have hnd : sess0.connectedSources.Nodup := hwf sid sess0 hget
    cases hcont : sess0.connectedSources.contains src with
    | true =>
      refine ⟨sess0, ?_, hcont, hnd, ?_⟩
      · rw [connect_existing_member store sid src t ds sess0 hds hget hcont]
        exact hget
      · rw [connect_existing_member store sid src t ds sess0 hds hget hcont]
    | false =>
      refine ⟨{ sess0 with connectedSources := sess0.connectedSources ++ [src] },
        ?_, by simp, ?_, ?_⟩
      · rw [connect_existing_add store sid src t ds sess0 hds hget hcont]
        exact storeGet?_set_self sid _ store
      · have hnm : src ∉ sess0.connectedSources := by simpa using hcont
        simp [List.nodup_append, hnd, hnm]
      · rw [connect_existing_add store sid src t ds sess0 hds hget hcont]

theorem handle_streamed
    (gen : List String → String → List String → Option Campaign)
    (stringify : Campaign → String) (store : Store)
    (sidP typeP chanP : Option String) (sess : Session) (c : Campaign)
    (hget : sidP.bind (storeGet? store) = some sess)
    (hne : sess.connectedSources.length ≠ 0)
    (hgen : gen sess.connectedSources (jsQueryOr typeP "general")
      (parseChannels chanP) = some c) :
    handleGenerateCampaign gen stringify store sidP typeP chanP =
      (.streamed (streamJSONResponse stringify c), store) := by
  simp [handleGenerateCampaign, hget, hne, hgen]

theorem terminalDocument_streamed (f : Campaign → String) (c : Campaign) :
    terminalDocument (.streamed (streamJSONResponse f c)) = some c := by
  simp [terminalDocument, streamJSONResponse_spec]

theorem handle_preserves_store
    (gen : List String → String → List String → Option Campaign)
    (stringify : Campaign → String) (store : Store)
    (sidP typeP chanP : Option String) :
    (handleGenerateCampaign gen stringify store sidP typeP chanP).2 = store := by
  unfold handleGenerateCampaign
  cases sidP.bind (storeGet? store) with
  | none => rfl
  | some sess =>
    by_cases hlen : sess.connectedSources.length = 0
    · simp [hlen]
    · simp only [hlen, if_false]
      cases gen sess.connectedSources (jsQueryOr typeP "general") (parseChannels chanP) with
      | none => rfl
      | some c => rfl

/-- C1: for every document d handed to streamJSONResponse under the
ambient serializer (JSON.stringify(-, null, 2), the stringify
parameter), the emitted stream is a sequence of non-terminal frames
whose chunk payloads, concatenated in emission order, equal the
serialized form of d exactly, followed by exactly one terminal frame
whose chunk is empty, whose done flag is true and whose attached
complete value equals d. -/
theorem stream_chunk_concatenation (stringify : α → String) (d : α) :
    concatChunks ((streamJSONResponse stringify d).dropLast.map (fun e => e.chunk)) =
      stringify d
    ∧ (streamJSONResponse stringify d).dropLast.all
        (fun e => !e.done && e.complete.isNone) = true
    ∧ (streamJSONResponse stringify d).getLast? = some ⟨"", true, some d⟩ := by
  rw [streamJSONResponse_spec]
  refine ⟨?_, ?_, ?_⟩
  · rw [List.dropLast_concat, List.map_map]
    have hcomp : ((fun e : SSEEvent α => e.chunk) ∘ fun c => (⟨c, false, none⟩ : SSEEvent α)) =
        fun c => c := rfl
    rw [hcomp, List.map_id']
    exact concatChunks_chunksFromIdx (stringify d)
  · rw [List.dropLast_concat]
    simp
  · simp

/-- C2: a client disconnect at chunk index k, 0 ≤ k < total chunks,
stops the stream: exactly the first k chunk frames were written, none of
them terminal, and no further frame of any kind is written whatever the
scheduler delivers afterwards; the per-connection timer is released
exactly once.  In addition no schedule whatsoever releases the timer
more than once, so every stream session ends through the terminal path
or the disconnect path but never both. -/
theorem stream_cancellation_safety (stringify : α → String) (d : α) (k : Nat)
    (rest acts : List StreamAction) (hk : k < totalChunks (stringify d)) :
    (runStream (stringify d) d
        (List.replicate k .tick ++ .close :: rest)).events.length = k
    ∧ (runStream (stringify d) d
        (List.replicate k .tick ++ .close :: rest)).events.all (fun e => !e.done) = true
    ∧ (runStream (stringify d) d
        (List.replicate k .tick ++ .close :: rest)).releases = 1
    ∧ (runStream (stringify d) d acts).releases ≤ 1 := by
  have h50 : 50 * k < (stringify d).length := totalChunks_bound _ k hk
  have hk2 : k ≤ (chunksFromIdx (stringify d) 0).length :=
    le_of_lt (lt_chunksFromIdx_length (stringify d) k 0 (by omega))
  obtain ⟨e2, hdead⟩ := foldl_dead (stringify d) d rest (0 + 50 * k)
    ([] ++ ((chunksFromIdx (stringify d) 0).take k).map
      (fun c => (⟨c, false, none⟩ : SSEEvent α))) (0 + 1) true
  have hclose : streamStep (stringify d) d
      ⟨0 + 50 * k, true,
        [] ++ ((chunksFromIdx (stringify d) 0).take k).map
          (fun c => (⟨c, false, none⟩ : SSEEvent α)), 0, false⟩ .close =
      ⟨0 + 50 * k, false,
        [] ++ ((chunksFromIdx (stringify d) 0).take k).map
          (fun c => (⟨c, false, none⟩ : SSEEvent α)), 0 + 1, true⟩ := by
    simp [streamStep]
  have hrun : runStream (stringify d) d (List.replicate k .tick ++ .close :: rest) =
      ⟨0 + 50 * k, false,
        [] ++ ((chunksFromIdx (stringify d) 0).take k).map
          (fun c => (⟨c, false, none⟩ : SSEEvent α)), 0 + 1, e2⟩ := by
    rw [runStream, List.foldl_append]
    rw [show initStreamState α = ⟨0, true, [], 0, false⟩ from rfl]
    rw [runStream_partial_ticks (stringify d) d k 0 [] 0 hk2]
    rw [List.foldl_cons, hclose, hdead]
  refine ⟨?_, ?_, ?_, ?_⟩
  · rw [hrun]
    simp only [List.nil_append, List.length_map, List.length_take]
    omega
  · rw [hrun]
    simp only [List.nil_append, List.all_eq_true, List.mem_map]
    rintro e ⟨c, hc, rfl⟩
    simp
  · rw [hrun]
  · rw [runStream]
    exact foldl_releases_inv (stringify d) d acts (initStreamState α)
      (by simp [initStreamState]) (fun _ => by simp [initStreamState])

/-- C2 witness: a concrete client disconnect at chunk index 1 of the
two-chunk stream over the 60-character test serialization, followed by
one more stray tick. -/
theorem stream_cancellation_safety_witness :
    1 < totalChunks testJson
    ∧ ((runStream testJson () (List.replicate 1 StreamAction.tick ++
          StreamAction.close :: [])).events.length = 1
      ∧ (runStream testJson () (List.replicate 1 StreamAction.tick ++
          StreamAction.close :: [])).events.all (fun e => !e.done) = true
      ∧ (runStream testJson () (List.replicate 1 StreamAction.tick ++
          StreamAction.close :: [])).releases = 1
      ∧ (runStream testJson () [StreamAction.tick]).releases ≤ 1) :=
  ⟨by decide,
   stream_cancellation_safety (fun _ => testJson) () 1 [] [StreamAction.tick] (by decide)⟩

/-- C4 counterexample: over a 10-character serialized form the cursor
jumps from 0 to 50 on the first tick, violating cursor ≤ L, and the
terminal frame is then emitted while the cursor is 50 ≠ L, so completion
does not coincide with cursor == L either. -/
theorem cursor_bound_counterexample :
    (runStream testJson10 () [StreamAction.tick]).index = 50
    ∧ ¬ ((runStream testJson10 () [StreamAction.tick]).index ≤ testJson10.length)
    ∧ (runStream testJson10 () [StreamAction.tick, StreamAction.tick]).events.any
        (fun e => e.done) = true
    ∧ (runStream testJson10 () [StreamAction.tick, StreamAction.tick]).index ≠
        testJson10.length := by
  decide

/-- C4 amended: the cursor starts at 0, never decreases, and satisfies
0 ≤ cursor ≤ L + 49 (the += 50 advance can overshoot L by up to 49 on
the last, shorter chunk); the stream is complete exactly when
cursor ≥ L, in the sense that any reached state whose frames contain the
terminal frame has cursor ≥ L, and from any live state with cursor ≥ L
the next timer tick emits the terminal frame and closes the channel. -/
theorem cursor_invariant_amended (s : String) (d : α) (acts : List StreamAction)
    (a : StreamAction) :
    (runStream s d []).index = 0
    ∧ (runStream s d acts).index ≤ s.length + 49
    ∧ (runStream s d acts).index ≤ (runStream s d (acts ++ [a])).index
    ∧ ((runStream s d acts).events.any (fun e => e.done) = true →
        s.length ≤ (runStream s d acts).index)
    ∧ (s.length ≤ (runStream s d acts).index →
        (runStream s d acts).timerActive = true →
        (streamStep s d (runStream s d acts) .tick).events.any (fun e => e.done) = true) := by
  have hinv := foldl_index_inv s d acts (initStreamState α)
    (by simp [initStreamState]) (fun h => by simp [initStreamState] at h)
  refine ⟨rfl, hinv.1, ?_, hinv.2, ?_⟩
  · rw [runStream_snoc]
    exact streamStep_index_mono s d _ a
  · intro hge hT
    have hni : ¬ (runStream s d acts).index < s.length := by omega
    simp [streamStep, hT, hni]

/-- C4 amended witness: over the 10-character serialized form, after the
two ticks that complete the stream the cursor is at least L and at most
L + 49. -/
theorem cursor_invariant_amended_witness :
    testJson10.length ≤ (runStream testJson10 () [StreamAction.tick, StreamAction.tick]).index
    ∧ (runStream testJson10 () [StreamAction.tick, StreamAction.tick]).index ≤
        testJson10.length + 49 :=
  ⟨(cursor_invariant_amended testJson10 () [StreamAction.tick, StreamAction.tick]
      StreamAction.tick).2.2.2.1 (by decide),
   (cursor_invariant_amended testJson10 () [StreamAction.tick, StreamAction.tick]
      StreamAction.tick).2.1⟩

/-- C5: connect is idempotent — calling it twice with the same session id
and the same valid source id answers the second call with exactly the
response of the first (same display-name list, same length and content),
leaves the store exactly as after the first call, and the session's
stored connected-source list carries no duplicates. -/
theorem connect_idempotent (store : Store) (sid src : String) (t1 t2 : Int)
    (ds : DataSource) (hds : DATA_SOURCES src = some ds) (hwf : StoreWF store) :
    (connect (connect store sid src t1).2 sid src t2).1 = (connect store sid src t1).1
    ∧ (connect (connect store sid src t1).2 sid src t2).2 = (connect store sid src t1).2
    ∧ (∀ sess : Session,
        storeGet? (connect (connect store sid src t1).2 sid src t2).2 sid = some sess →
        sess.connectedSources.Nodup) := by
  obtain ⟨sess, hget, hcont, hnd, hres⟩ := connect_result_session store sid src t1 ds hds hwf
  have h2 := connect_existing_member (connect store sid src t1).2 sid src t2 ds sess
    hds hget hcont
  refine ⟨?_, ?_, ?_⟩
  · rw [h2, hres]
  · rw [h2]
  · intro s2 hs2
    rw [h2] at hs2
    rw [hget] at hs2
    have heq := Option.some.inj hs2
    rw [← heq]
    exact hnd

/-- C5 witness: connecting shopify twice on a fresh session of the empty
store. -/
theorem connect_idempotent_witness :
    (connect (connect [] "s1" "shopify" 0).2 "s1" "shopify" 0).1 =
      (connect [] "s1" "shopify" 0).1
    ∧ (connect (connect [] "s1" "shopify" 0).2 "s1" "shopify" 0).2 =
      (connect [] "s1" "shopify" 0).2
    ∧ (∀ sess : Session,
        storeGet? (connect (connect [] "s1" "shopify" 0).2 "s1" "shopify" 0).2 "s1" =
          some sess → sess.connectedSources.Nodup) :=
  connect_idempotent [] "s1" "shopify" 0 0 shopifySource rfl
    (fun k sess h => by simp [storeGet?] at h)

/-- C6: connect preserves first-connection order — on a session id the
store has never seen, connecting valid source A and then valid source B
(with A ≠ B) answers the second call with the display names in order
[A, B]. -/
theorem connect_order_preservation (store : Store) (sid A B : String) (t1 t2 : Int)
    (dsA dsB : DataSource)
    (hA : DATA_SOURCES A = some dsA) (hB : DATA_SOURCES B = some dsB)
    (hfresh : storeHas store sid = false) (hne : A ≠ B) :
    (connect (connect store sid A t1).2 sid B t2).1 =
      .success dsB.name [dsA.name, dsB.name] := by
  rw [connect_fresh store sid A t1 dsA hA hfresh]
  have hget : storeGet? (storeSet (storeSet store sid ⟨[], t1⟩) sid ⟨[A], t1⟩) sid =
      some ⟨[A], t1⟩ := storeGet?_set_self sid ⟨[A], t1⟩ _
  have hcont : (Session.mk [A] t1).connectedSources.contains B = false := by
    simp only [List.contains_cons, List.contains_nil, Bool.or_false, beq_eq_false_iff_ne]
    exact fun h => hne h.symm
  rw [connect_existing_add _ sid B t2 dsB ⟨[A], t1⟩ hB hget hcont]
  simp [sourceDisplayName, hA, hB]

/-- C6 witness: facebook-pixel then shopify on a fresh session. -/
theorem connect_order_preservation_witness :
    (connect (connect [] "s1" "facebook-pixel" 0).2 "s1" "shopify" 0).1 =
      .success shopifySource.name [facebookPixelSource.name, shopifySource.name] :=
  connect_order_preservation [] "s1" "facebook-pixel" "shopify" 0 0
    facebookPixelSource shopifySource rfl rfl rfl (by decide)

/-- C7 counterexample: toString is not one of the known source ids, yet
connect accepts it — `!DATA_SOURCES[source]` sees the truthy toString
member the object literal inherits from Object.prototype, validation
passes, and the call creates a session holding toString in place of
returning the invalid-data-source error. -/
theorem connect_inherited_key_accepted :
    DATA_SOURCES "toString" = none
    ∧ objectPrototypeKeys.contains "toString" = true
    ∧ (connect [] "s1" "toString" 0).1 ≠ .error "Invalid data source"
    ∧ (connect [] "s1" "toString" 0).2 = [("s1", ⟨["toString"], 0⟩)] := by
  decide

/-- C7 amended: connect with a source id that is neither a known source
id nor the name of an inherited Object.prototype member fails
atomically — the response is the invalid-data-source 400 error, the
store is returned exactly as it was, and in particular a session id
that had no entry before the call still has none after it.  (Ids naming
inherited Object.prototype members, such as toString, defeat the
`!DATA_SOURCES[source]` truthiness check and are connected and stored
like known sources.) -/
theorem connect_unknown_source_rejected (store : Store) (sid src : String) (t : Int)
    (h1 : DATA_SOURCES src = none) (h2 : objectPrototypeKeys.contains src = false) :
    connect store sid src t = (.error "Invalid data source", store)
    ∧ (storeHas store sid = false → storeHas (connect store sid src t).2 sid = false) := by
  refine ⟨connect_invalid store sid src t h1 h2, ?_⟩
  intro hf
  rw [connect_invalid store sid src t h1 h2]
  exact hf

/-- C7 witness: connecting the unknown source id unknown-x (no known
source, no inherited member) for an absent session of a one-session
store. -/
theorem connect_unknown_source_rejected_witness :
    connect [("s1", ⟨["shopify"], 0⟩)] "s9" "unknown-x" 0 =
      (.error "Invalid data source", [("s1", ⟨["shopify"], 0⟩)])
    ∧ storeHas (connect [("s1", ⟨["shopify"], 0⟩)] "s9" "unknown-x" 0).2 "s9" = false :=
  ⟨(connect_unknown_source_rejected [("s1", ⟨["shopify"], 0⟩)] "s9" "unknown-x" 0
      rfl (by decide)).1,
   (connect_unknown_source_rejected [("s1", ⟨["shopify"], 0⟩)] "s9" "unknown-x" 0
      rfl (by decide)).2 (by decide)⟩

/-- C3: validation precedence of GET /api/generate-campaign — whatever
the query parameters and whatever document generator the endpoint would
delegate to, a session id with no store entry is answered with the
SessionNotFound 400 body and an existing session with an empty
connected-source list with the NoSourcesConnected 400 body; both answers
are the plain validationError response produced before the SSE headers
are set, the generator is never invoked (the result is the same for
every gen), and the store is untouched. -/
theorem generate_validation_precedence
    (gen : List String → String → List String → Option Campaign)
    (stringify : Campaign → String) (store : Store)
    (sidP typeP chanP : Option String) :
    (sidP.bind (storeGet? store) = none →
      handleGenerateCampaign gen stringify store sidP typeP chanP =
        (.validationError "No session found. Please connect data sources first.", store))
    ∧ (∀ sess : Session, sidP.bind (storeGet? store) = some sess →
        sess.connectedSources = [] →
        handleGenerateCampaign gen stringify store sidP typeP chanP =
          (.validationError "No data sources connected", store)) := by
  constructor
  · intro h
    simp [handleGenerateCampaign, h]
  · intro sess h hempty
    simp [handleGenerateCampaign, h, hempty]

/-- C3 witness: a store holding one zero-source session; an unknown
session id is rejected with SessionNotFound regardless of the query
parameters, and the existing zero-source session with
NoSourcesConnected. -/
theorem generate_validation_precedence_witness :
    handleGenerateCampaign (generateCampaign testTimeEnv "cid-0") testStringify
      [("s1", ⟨[], 0⟩)] (some "zzz") (some "flash-sale") (some "sms") =
      (.validationError "No session found. Please connect data sources first.",
        [("s1", ⟨[], 0⟩)])
    ∧ handleGenerateCampaign (generateCampaign testTimeEnv "cid-0") testStringify
      [("s1", ⟨[], 0⟩)] (some "s1") none none =
      (.validationError "No data sources connected", [("s1", ⟨[], 0⟩)]) :=
  ⟨(generate_validation_precedence (generateCampaign testTimeEnv "cid-0") testStringify
      [("s1", ⟨[], 0⟩)] (some "zzz") (some "flash-sale") (some "sms")).1 (by decide),
   (generate_validation_precedence (generateCampaign testTimeEnv "cid-0") testStringify
      [("s1", ⟨[], 0⟩)] (some "s1") none none).2 ⟨[], 0⟩ (by decide) rfl⟩

/-- C9: end-to-end — connect session s1 to shopify on the empty store,
then issue generate-campaign for it with type flash-sale and channels
sms: the stream's terminal frame carries a complete document whose
channel.primary is sms and whose campaign.dataSources contains the
Shopify display name. -/
theorem end_to_end_flash_sale (env : TimeEnv) (cid : String)
    (stringify : Campaign → String) (t0 : Int) :
    ∃ c : Campaign,
      terminalDocument (handleGenerateCampaign (generateCampaign env cid) stringify
        (connect [] "s1" "shopify" t0).2 (some "s1") (some "flash-sale") (some "sms")).1
        = some c
      ∧ c.channel.primary = "sms"
      ∧ "Shopify" ∈ c.campaign.dataSources := by
  have hstore : (connect [] "s1" "shopify" t0).2 = [("s1", ⟨["shopify"], t0⟩)] := rfl
  have hsome : (generateCampaign env cid ["shopify"] "flash-sale" ["sms"]).isSome = true := rfl
  obtain ⟨c, hc⟩ := Option.isSome_iff_exists.mp hsome
  have hhandle := handle_streamed (generateCampaign env cid) stringify
    [("s1", ⟨["shopify"], t0⟩)] (some "s1") (some "flash-sale") (some "sms")
    ⟨["shopify"], t0⟩ c rfl (by simp) (by exact hc)
  refine ⟨c, ?_, ?_, ?_⟩
  · rw [hstore, hhandle]
    exact terminalDocument_streamed stringify c
  · have hc2 : (generateCampaign env cid ["shopify"] "flash-sale" ["sms"]).map
        (fun x => x.channel.primary) = some "sms" := rfl
    rw [hc] at hc2
    have hc2x : some c.channel.primary = some "sms" := hc2
    exact Option.some.inj hc2x
  · have hc3 : (generateCampaign env cid ["shopify"] "flash-sale" ["sms"]).map
        (fun x => x.campaign.dataSources) = some ["Shopify"] := rfl
    rw [hc] at hc3
    have hc3x : some c.campaign.dataSources = some ["Shopify"] := hc3
    rw [Option.some.inj hc3x]
    simp

/-- C10: the generate-campaign endpoint validates no channel ids — for a
connected session with a selected channel id outside the known enum
(email, sms, whatsapp, ads) and a campaign type that falls through to
selectedChannels[0], the unguarded CHANNELS[selectedChannel] property
chain finds no entry, generateCampaign produces no document, and the
request ends in the generationFailed state, reached only after the SSE
headers were already set (validation passed, so the plain 400 path was
no longer available). -/
theorem generate_missing_channel_validation :
    handleGenerateCampaign (generateCampaign testTimeEnv "cid-1") testStringify
      [("s2", ⟨["shopify"], 0⟩)] (some "s2") none (some "smoke-signal") =
      (.generationFailed, [("s2", ⟨["shopify"], 0⟩)])
    ∧ CHANNELS "smoke-signal" = none
    ∧ generateCampaign testTimeEnv "cid-1" ["shopify"] "general" ["smoke-signal"] = none :=
  ⟨rfl, rfl, rfl⟩

/-- C8 counterexample: generateCampaign also reads the random uuidv4()
draw, not only the wall clock — two runs with identical arguments and an
identical now reading but different uuid draws produce documents that
differ in campaign.id, so the generator is not deterministic modulo
wall-clock time alone. -/
theorem generator_uuid_nondeterminism :
    generateCampaign testTimeEnv "uuid-a" ["shopify"] "general" ["email"] ≠
      generateCampaign testTimeEnv "uuid-b" ["shopify"] "general" ["email"] := by
  intro h
  have h1 : (generateCampaign testTimeEnv "uuid-a" ["shopify"] "general" ["email"]).map
      (fun c => c.campaign.id) = some "uuid-a" := rfl
  rw [h] at h1
  have h2 : (generateCampaign testTimeEnv "uuid-b" ["shopify"] "general" ["email"]).map
      (fun c => c.campaign.id) = some "uuid-b" := rfl
  rw [h2] at h1
  exact absurd (Option.some.inj h1) (by decide)

/-- C8 amended: generateCampaign is a pure function of its arguments,
the wall-clock readings and the uuidv4() draw — identical arguments,
identical now reading and identical generated campaign id yield equal
documents — and a generate request never mutates the session store: the
handler returns the store unchanged for every generator, serializer and
query. -/
theorem generator_deterministic_and_pure (env : TimeEnv) (cid : String)
    (srcs : List String) (ctype : String) (chans : List String)
    (gen : List String → String → List String → Option Campaign)
    (stringify : Campaign → String) (store : Store)
    (sidP typeP chanP : Option String) :
    generateCampaign env cid srcs ctype chans = generateCampaign env cid srcs ctype chans
    ∧ (handleGenerateCampaign gen stringify store sidP typeP chanP).2 = store :=
  ⟨rfl, handle_preserves_store gen stringify store sidP typeP chanP⟩
